import Mathlib

/-!
# Verification of the nengo example-notebook repository

This file gives a shallow embedding of the three notebook source files of the
repository and of the computations their code cells define, and proves the
stated properties about them.

The repository consists of notebook files (JSON documents).  Three kinds of
artefacts are embedded here:

* the notebook documents themselves, as terms of a small JSON syntax tree
  (`Json`), transcribed verbatim from the source files, together with the
  notebook-schema predicates;
* the pure functions defined inside the code cells (`square`, `feedback`,
  `product`) and the transform matrices built by the matrix-multiplication
  notebook (`transformA`/`transformB`/`transformC` loops), with real scalars
  modelled as rationals;
* the signal-flow semantics of the framework objects the notebooks call
  (connections with a transform apply the matrix to the incoming vector and
  inputs sum; an EnsembleArray applies a per-ensemble output function to each
  sub-ensemble's own dimensions).  The framework (the nengo library) belongs
  to the repository but is not among the packaged source files, so those
  semantics are modelled from the specification's description.
-/

namespace Nengo

/-- A small JSON value syntax tree, sufficient for the notebook documents
(the only numbers occurring in them are integers). -/
inductive Json where
  | null : Json
  | bool (b : Bool) : Json
  | num (n : Int) : Json
  | str (s : String) : Json
  | arr (elems : List Json) : Json
  | obj (fields : List (String × Json)) : Json
deriving Repr

/-- Look up the value of a key in a JSON object field list (first match). -/
def jsonLookup (fields : List (String × Json)) (k : String) : Option Json :=
  (fields.find? (fun p => p.1 == k)).map (fun p => p.2)

/-- A JSON value is a notebook cell: an object whose cell_type field is the
string markdown or the string code. -/
def isCell (j : Json) : Bool :=
  match j with
  | Json.obj fs =>
    match jsonLookup fs "cell_type" with
    | some (Json.str t) => t == "markdown" || t == "code"
    | _ => false
  | _ => false

/-- A JSON value is a notebook worksheet: an object holding a cells array
whose every element is a cell tagged markdown or code. -/
def isWorksheet (j : Json) : Bool :=
  match j with
  | Json.obj fs =>
    match jsonLookup fs "cells" with
    | some (Json.arr cs) => cs.all isCell
    | _ => false
  | _ => false

/-- A JSON value conforms to the notebook schema: an object with metadata,
nbformat and worksheets keys, each worksheet holding cells tagged markdown
or code. -/
def isNotebookDoc (j : Json) : Bool :=
  match j with
  | Json.obj fs =>
    (jsonLookup fs "metadata").isSome &&
    (jsonLookup fs "nbformat").isSome &&
    (match jsonLookup fs "worksheets" with
     | some (Json.arr ws) => ws.all isWorksheet
     | _ => false)
  | _ => false

/-- Every code cell of this JSON value (at cell level): if the cell_type is
code then the outputs field is present and is the empty array. -/
def cellOutputsEmpty (j : Json) : Bool :=
  match j with
  | Json.obj fs =>
    match jsonLookup fs "cell_type" with
    | some (Json.str t) =>
      if t == "code" then
        match jsonLookup fs "outputs" with
        | some (Json.arr os) => os.isEmpty
        | _ => false
      else true
    | _ => true
  | _ => true

/-- Every code cell of a notebook document has an empty outputs list. -/
def docOutputsEmpty (j : Json) : Bool :=
  match j with
  | Json.obj fs =>
    match jsonLookup fs "worksheets" with
    | some (Json.arr ws) =>
      ws.all (fun w =>
        match w with
        | Json.obj wfs =>
          match jsonLookup wfs "cells" with
          | some (Json.arr cs) => cs.all cellOutputsEmpty
          | _ => false
        | _ => false)
    | _ => false
  | _ => false

/-- The ensemble-array notebook document (src/unnamed/part_000), transcribed as a Json term. -/
def ensembleArrayDoc : Json :=
  Json.obj [
    ("metadata",
    Json.obj [
      ("name",
      Json.str "")]),
    ("nbformat",
    Json.num 3),
    ("nbformat_minor",
    Json.num 0),
    ("worksheets",
    Json.arr [
      Json.obj [
        ("cells",
        Json.arr [
          Json.obj [
            ("cell_type",
            Json.str "markdown"),
            ("metadata",
            Json.obj []),
            ("source",
            Json.arr [
              Json.str "# Nengo Network: Ensemble Array\n",
              Json.str "\n",
              Json.str "An ensemble array is a group of ensembles that each represent a part of the overall signal.\n",
              Json.str "\n",
              Json.str "Ensemble arrays are similar to normal ensembles, but expose a slightly different interface. Additionally, in an ensemble array, the components of the overall signal are not related. As a result, network arrays cannot be used to compute nonlinear functions that mix the dimensions they represent."])],
          Json.obj [
            ("cell_type",
            Json.str "code"),
            ("collapsed",
            Json.bool false),
            ("input",
            Json.arr [
              Json.str "import nengo\n",
              Json.str "import numpy as np\n",
              Json.str "\n",
              Json.str "model = nengo.Model(\x27Ensemble Array\x27)\n",
              Json.str "\n",
              Json.str "# Make an input node\n",
              Json.str "sin = nengo.Node(output=lambda t: [np.cos(t), np.sin(t)])\n",
              Json.str "\n",
              Json.str "# Make ensembles to connect\n",
              Json.str "A = nengo.networks.EnsembleArray(nengo.LIF(100), 2)\n",
              Json.str "B = nengo.Ensemble(nengo.LIF(100), 2)\n",
              Json.str "C = nengo.networks.EnsembleArray(nengo.LIF(100), 2)\n",
              Json.str "\n",
              Json.str "# Connect the model elements, just feedforward\n",
              Json.str "nengo.Connection(sin, A.input)\n",
              Json.str "nengo.Connection(A.output, B)\n",
              Json.str "nengo.Connection(B, C.input)\n",
              Json.str "\n",
              Json.str "# Setup the probes for plotting\n",
              Json.str "sin_probe = nengo.Probe(sin, \x27output\x27)\n",
              Json.str "A_probe = nengo.Probe(A.output, \x27output\x27, filter=0.02)\n",
              Json.str "B_probe = nengo.Probe(B, \x27decoded_output\x27, filter=0.02)\n",
              Json.str "C_probe = nengo.Probe(C.output, \x27output\x27, filter=0.02)"]),
            ("language",
            Json.str "python"),
            ("metadata",
            Json.obj []),
            ("outputs",
            Json.arr [])],
          Json.obj [
            ("cell_type",
            Json.str "code"),
            ("collapsed",
            Json.bool false),
            ("input",
            Json.arr [
              Json.str "# Set up and run the simulator\n",
              Json.str "sim = nengo.Simulator(model)\n",
              Json.str "sim.run(10)"]),
            ("language",
            Json.str "python"),
            ("metadata",
            Json.obj []),
            ("outputs",
            Json.arr [])],
          Json.obj [
            ("cell_type",
            Json.str "code"),
            ("collapsed",
            Json.bool false),
            ("input",
            Json.arr [
              Json.str "import matplotlib.pyplot as plt\n",
              Json.str "\n",
              Json.str "#Plot the results\n",
              Json.str "plt.plot(sim.trange(), sim.data[sin_probe])\n",
              Json.str "plt.plot(sim.trange(), sim.data[A_probe])\n",
              Json.str "plt.plot(sim.trange(), sim.data[B_probe])\n",
              Json.str "plt.plot(sim.trange(), sim.data[C_probe])"]),
            ("language",
            Json.str "python"),
            ("metadata",
            Json.obj []),
            ("outputs",
            Json.arr [])],
          Json.obj [
            ("cell_type",
            Json.str "markdown"),
            ("metadata",
            Json.obj []),
            ("source",
            Json.arr [
              Json.str "These plots demonstrate that the network array works very similarly to a standard N-dimensional population. However, this is not true when it comes to computing functions. Network arrays cannot be used to compute nonlinear functions that mix the dimensions they represent."])]]),
        ("metadata",
        Json.obj [])]])]

/-- The controlled-oscillator notebook document (src/examples/controlled_oscillator.ipynb), transcribed as a Json term. -/
def controlledOscillatorDoc : Json :=
  Json.obj [
    ("metadata",
    Json.obj [
      ("name",
      Json.str "")]),
    ("nbformat",
    Json.num 3),
    ("nbformat_minor",
    Json.num 0),
    ("worksheets",
    Json.arr [
      Json.obj [
        ("cells",
        Json.arr [
          Json.obj [
            ("cell_type",
            Json.str "markdown"),
            ("metadata",
            Json.obj []),
            ("source",
            Json.arr [
              Json.str "# Nengo Example: Controlled Oscillator\n",
              Json.str "\n",
              Json.str "The controlled oscillator is an oscillator with an extra input that controls the frequency of the oscillation.\n",
              Json.str "\n",
              Json.str "To implement a basic oscillator, we would use a neural ensemble of two dimensions that has the following dynamics:\n",
              Json.str "\n",
              Json.str "$$\n",
              Json.str "\\dot\x7bx\x7d = \\begin\x7bbmatrix\x7d 0 && - \\omega \\\\\\ \\omega && 0 \\end\x7bbmatrix\x7d x\n",
              Json.str "$$\n",
              Json.str "\n",
              Json.str "where the frequency of oscillation is $1 \\over \x7b2 \\pi\x7d$\n",
              Json.str "\n",
              Json.str "We need the neurons to represent three variables, $x_0$, $x_1$, and $\\omega$.  According the the dynamics principle of the NEF, in order to implement some particular dynamics, we need to convert this dynamics equation into a feedback function:\n",
              Json.str "\n",
              Json.str "$$ \\begin\x7balign*\x7d\n",
              Json.str "\\dot\x7bx\x7d &= f(x) \\\\\\\n",
              Json.str "&\\implies f_\x7bfeedback\x7d(x) = x + \\tau f(x)\n",
              Json.str "\\end\x7balign*\x7d\n",
              Json.str "$$\n",
              Json.str "\n",
              Json.str "where \\tau is the post-synaptic time constant of the feedback connection.\n",
              Json.str "\n",
              Json.str "In this case, the feedback function to be computed is \n",
              Json.str "\n",
              Json.str "$$\n",
              Json.str "\\begin\x7balign*\x7d\n",
              Json.str "f_\x7bfeedback\x7d(x) &= x + \\tau \\begin\x7bbmatrix\x7d 0 && - \\omega \\\\\\ \\omega && 0 \\end\x7bbmatrix\x7d x \\\\\\ \n",
              Json.str "                &= \\begin\x7bbmatrix\x7d x_0 - \\tau \\cdot \\omega \\cdot x_1 \\\\\\ x_1 + \\tau \\cdot \\omega \\cdot x_0\\end\x7bbmatrix\x7d\n",
              Json.str "\\end\x7balign*\x7d\n",
              Json.str "$$\n",
              Json.str "\n",
              Json.str "Since the neural ensemble represents all three variables but the dynamics only affects the first two ($x_0$, $x_1$), we need the feedback function to not affect that last variable.  We do this by adding a zero to the feedback function.\n",
              Json.str "\n",
              Json.str "$$\n",
              Json.str "f_\x7bfeedback\x7d(x) = \\begin\x7bbmatrix\x7d x_0 - \\tau \\cdot \\omega \\cdot x_1 \\\\\\ x_1 + \\tau \\cdot \\omega \\cdot x_0 \\\\\\ 0 \\end\x7bbmatrix\x7d\n",
              Json.str "$$\n",
              Json.str "\n",
              Json.str "We also generally want to keep the ranges of variables represented within an ensemble to be approximately the same.  In this case, if $x_0$ and $x_1$ are between -1 and 1, $\\omega$ will also be between -1 and 1, giving a frequency range of $-1 \\over \x7b2 \\pi\x7d$ to $1 \\over \x7b2 \\pi\x7d$.  To increase this range, we introduce a scaling factor to $\\omega$ called $\\omega_\x7bmax\x7d$.\n",
              Json.str "\n",
              Json.str "$$\n",
              Json.str "f_\x7bfeedback\x7d(x) = \\begin\x7bbmatrix\x7d x_0 - \\tau \\cdot \\omega \\cdot \\omega_\x7bmax\x7d \\cdot x_1 \\\\\\ x_1 + \\tau \\cdot \\omega \\cdot \\omega_\x7bmax\x7d \\cdot x_0 \\\\\\ 0 \\end\x7bbmatrix\x7d\n",
              Json.str "$$\n",
              Json.str "\n"])],
          Json.obj [
            ("cell_type",
            Json.str "markdown"),
            ("metadata",
            Json.obj []),
            ("source",
            Json.arr [
              Json.str "## Step 1: Create the network"])],
          Json.obj [
            ("cell_type",
            Json.str "code"),
            ("collapsed",
            Json.bool false),
            ("input",
            Json.arr [
              Json.str "import nengo\n",
              Json.str "\n",
              Json.str "tau = 0.1   # Post-synaptic time constant for feedback\n",
              Json.str "w_max = 10  # Maximum frequency is w_max/(2*pi)\n",
              Json.str "\n",
              Json.str "model = nengo.Model(\x27Controlled Oscillator\x27)\n",
              Json.str "\n",
              Json.str "# The ensemble for the oscillator\n",
              Json.str "oscillator = nengo.Ensemble(nengo.LIF(500), dimensions=3, radius=1.7)\n",
              Json.str "\n",
              Json.str "# The feedback connection\n",
              Json.str "def feedback(x):\n",
              Json.str "    x0, x1, w = x  # These are the three variables stored in the ensemble\n",
              Json.str "    return x0 + w*w_max*tau*x1, x1 - w*w_max*tau*x0, 0\n",
              Json.str "nengo.Connection(oscillator, oscillator, function=feedback, filter=tau)\n",
              Json.str "\n",
              Json.str "# The ensemble for controlling the speed of oscillation\n",
              Json.str "frequency = nengo.Ensemble(nengo.LIF(100), dimensions=1)\n",
              Json.str "\n",
              Json.str "nengo.Connection(frequency, oscillator, transform=[[0], [0], [1]])"]),
            ("language",
            Json.str "python"),
            ("metadata",
            Json.obj []),
            ("outputs",
            Json.arr [])],
          Json.obj [
            ("cell_type",
            Json.str "markdown"),
            ("metadata",
            Json.obj []),
            ("source",
            Json.arr [
              Json.str "## Step 2: Create the input"])],
          Json.obj [
            ("cell_type",
            Json.str "code"),
            ("collapsed",
            Json.bool false),
            ("input",
            Json.arr [
              Json.str "from nengo.utils.functions import piecewise\n",
              Json.str "\n",
              Json.str "# We need a quick input at the beginning to start the oscillator\n",
              Json.str "initial = nengo.Node(piecewise(\x7b0: [1, 0, 0], 0.15: [0, 0, 0]\x7d))\n",
              Json.str "nengo.Connection(initial, oscillator)\n",
              Json.str "\n",
              Json.str "# Vary the speed over time\n",
              Json.str "input_frequency = nengo.Node(piecewise(\x7b0: 1, 1: 0.5, 2: 0, 3: -0.5, 4: -1\x7d))\n",
              Json.str "\n",
              Json.str "nengo.Connection(input_frequency, frequency)"]),
            ("language",
            Json.str "python"),
            ("metadata",
            Json.obj []),
            ("outputs",
            Json.arr [])],
          Json.obj [
            ("cell_type",
            Json.str "markdown"),
            ("metadata",
            Json.obj []),
            ("source",
            Json.arr [
              Json.str "## Step 3: Add Probes"])],
          Json.obj [
            ("cell_type",
            Json.str "code"),
            ("collapsed",
            Json.bool false),
            ("input",
            Json.arr [
              Json.str "# Indicate which values to record\n",
              Json.str "oscillator_probe = nengo.Probe(oscillator, \x27decoded_output\x27, filter=0.03)"]),
            ("language",
            Json.str "python"),
            ("metadata",
            Json.obj []),
            ("outputs",
            Json.arr [])],
          Json.obj [
            ("cell_type",
            Json.str "markdown"),
            ("metadata",
            Json.obj []),
            ("source",
            Json.arr [
              Json.str "## Step 4: Run the Model"])],
          Json.obj [
            ("cell_type",
            Json.str "code"),
            ("collapsed",
            Json.bool false),
            ("input",
            Json.arr [
              Json.str "sim = nengo.Simulator(model)\n",
              Json.str "sim.run(5)"]),
            ("language",
            Json.str "python"),
            ("metadata",
            Json.obj []),
            ("outputs",
            Json.arr [])],
          Json.obj [
            ("cell_type",
            Json.str "markdown"),
            ("metadata",
            Json.obj []),
            ("source",
            Json.arr [
              Json.str "## Step 5: Plot the Results"])],
          Json.obj [
            ("cell_type",
            Json.str "code"),
            ("collapsed",
            Json.bool false),
            ("input",
            Json.arr [
              Json.str "import matplotlib.pyplot as plt\n",
              Json.str "plt.plot(sim.trange(), sim.data[oscillator_probe])\n",
              Json.str "plt.xlabel(\x27Time (s)\x27)\n",
              Json.str "plt.legend([\x27$x_0$\x27, \x27$x_1$\x27, \x27$\\omega$\x27])"]),
            ("language",
            Json.str "python"),
            ("metadata",
            Json.obj []),
            ("outputs",
            Json.arr [])]]),
        ("metadata",
        Json.obj [])]])]

/-- The squaring notebook document: the first JSON document of src/examples/squaring.ipynb. -/
def squaringDoc : Json :=
  Json.obj [
    ("metadata",
    Json.obj [
      ("name",
      Json.str "")]),
    ("nbformat",
    Json.num 3),
    ("nbformat_minor",
    Json.num 0),
    ("worksheets",
    Json.arr [
      Json.obj [
        ("cells",
        Json.arr [
          Json.obj [
            ("cell_type",
            Json.str "markdown"),
            ("metadata",
            Json.obj []),
            ("source",
            Json.arr [
              Json.str "# Nengo Example: Squaring the Input"])],
          Json.obj [
            ("cell_type",
            Json.str "markdown"),
            ("metadata",
            Json.obj []),
            ("source",
            Json.arr [
              Json.str "This demo shows you how to construct a network that squares the value encoded in a first population in the output of a second population. "])],
          Json.obj [
            ("cell_type",
            Json.str "markdown"),
            ("metadata",
            Json.obj []),
            ("source",
            Json.arr [
              Json.str "## Step 1: Create the Model"])],
          Json.obj [
            ("cell_type",
            Json.str "markdown"),
            ("metadata",
            Json.obj []),
            ("source",
            Json.arr [
              Json.str "The model is comprised of an input ensemble (\x27A\x27) and an output ensemble (\x27B\x27), from which the squared value of the input signal can be decoded."])],
          Json.obj [
            ("cell_type",
            Json.str "code"),
            ("collapsed",
            Json.bool false),
            ("input",
            Json.arr [
              Json.str "# Create the model object\n",
              Json.str "import nengo\n",
              Json.str "model = nengo.Model(\x27Squaring\x27)\n",
              Json.str "\n",
              Json.str "# Create two ensembles of 100 leaky-integrate-and-fire neurons\n",
              Json.str "A = nengo.Ensemble(nengo.LIF(100), dimensions=1)\n",
              Json.str "B = nengo.Ensemble(nengo.LIF(100), dimensions=1)"]),
            ("language",
            Json.str "python"),
            ("metadata",
            Json.obj []),
            ("outputs",
            Json.arr [])],
          Json.obj [
            ("cell_type",
            Json.str "markdown"),
            ("metadata",
            Json.obj []),
            ("source",
            Json.arr [
              Json.str "##Step 2: Provide Input to the Model"])],
          Json.obj [
            ("cell_type",
            Json.str "markdown"),
            ("metadata",
            Json.obj []),
            ("source",
            Json.arr [
              Json.str "A single input signal (a sine wave) will be used to drive the neural activity in ensemble A."])],
          Json.obj [
            ("cell_type",
            Json.str "code"),
            ("collapsed",
            Json.bool false),
            ("input",
            Json.arr [
              Json.str "import numpy as np\n",
              Json.str "\n",
              Json.str "# Create an input node that represents a sine wave\n",
              Json.str "sin = nengo.Node(output=np.sin)\n",
              Json.str "\n",
              Json.str "# Connect the input node to ensemble A\n",
              Json.str "nengo.Connection(sin, A)\n",
              Json.str "\n",
              Json.str "# Define the squaring function\n",
              Json.str "def square(x):\n",
              Json.str "    return x[0] * x[0]\n",
              Json.str "\n",
              Json.str "# Connection ensemble A to ensemble B\n",
              Json.str "nengo.Connection(A, B, function=square)"]),
            ("language",
            Json.str "python"),
            ("metadata",
            Json.obj []),
            ("outputs",
            Json.arr [])],
          Json.obj [
            ("cell_type",
            Json.str "markdown"),
            ("metadata",
            Json.obj []),
            ("source",
            Json.arr [
              Json.str "##Step 3: Probe the Output"])],
          Json.obj [
            ("cell_type",
            Json.str "markdown"),
            ("metadata",
            Json.obj []),
            ("source",
            Json.arr [
              Json.str "Let\x27s collect output data from each ensemble and output."])],
          Json.obj [
            ("cell_type",
            Json.str "code"),
            ("collapsed",
            Json.bool false),
            ("input",
            Json.arr [
              Json.str "sin_probe = nengo.Probe(sin, \x27output\x27)\n",
              Json.str "A_probe = nengo.Probe(A, \x27decoded_output\x27, filter=0.01)\n",
              Json.str "B_probe = nengo.Probe(B, \x27decoded_output\x27, filter=0.01)"]),
            ("language",
            Json.str "python"),
            ("metadata",
            Json.obj []),
            ("outputs",
            Json.arr [])],
          Json.obj [
            ("cell_type",
            Json.str "markdown"),
            ("metadata",
            Json.obj []),
            ("source",
            Json.arr [
              Json.str "## Step 4: Run the Model"])],
          Json.obj [
            ("cell_type",
            Json.str "code"),
            ("collapsed",
            Json.bool false),
            ("input",
            Json.arr [
              Json.str "# Create the simulator\n",
              Json.str "sim = nengo.Simulator(model)\n",
              Json.str "# Run the simulator for 5 seconds\n",
              Json.str "sim.run(5)"]),
            ("language",
            Json.str "python"),
            ("metadata",
            Json.obj []),
            ("outputs",
            Json.arr [])],
          Json.obj [
            ("cell_type",
            Json.str "code"),
            ("collapsed",
            Json.bool false),
            ("input",
            Json.arr [
              Json.str "import matplotlib.pyplot as plt\n",
              Json.str "\n",
              Json.str "# Plot the input signal and decoded ensemble values\n",
              Json.str "plt.plot(sim.trange(), sim.data[A_probe],  label=\x27Decoded Ensemble A\x27)\n",
              Json.str "plt.plot(sim.trange(), sim.data[B_probe], label=\x27Decoded Ensemble B\x27)\n",
              Json.str "plt.plot(sim.trange(), sim.data[sin_probe], label=\x27Input Sine Wave\x27, color=\x27k\x27, linewidth=2.0)\n",
              Json.str "plt.legend(loc=\x27best\x27)\n",
              Json.str "plt.ylim(-1.2, 1.2)"]),
            ("language",
            Json.str "python"),
            ("metadata",
            Json.obj []),
            ("outputs",
            Json.arr [])],
          Json.obj [
            ("cell_type",
            Json.str "markdown"),
            ("metadata",
            Json.obj []),
            ("source",
            Json.arr [
              Json.str "The plotted ouput of ensemble B should show the decoded squared value of the input sine wave.  "])]]),
        ("metadata",
        Json.obj [])]])]

/-- The matrix-multiplication notebook document: the second JSON document of src/examples/squaring.ipynb, separated from the first by a packaging marker. -/
def matrixMultiplicationDoc : Json :=
  Json.obj [
    ("metadata",
    Json.obj [
      ("name",
      Json.str "")]),
    ("nbformat",
    Json.num 3),
    ("nbformat_minor",
    Json.num 0),
    ("worksheets",
    Json.arr [
      Json.obj [
        ("cells",
        Json.arr [
          Json.obj [
            ("cell_type",
            Json.str "markdown"),
            ("metadata",
            Json.obj []),
            ("source",
            Json.arr [
              Json.str "# Nengo Example: Matrix multiplication\n",
              Json.str "\n",
              Json.str "This example demonstrates how to perform general matrix multiplication using Nengo.  The matrix can change during the computation, which makes it distinct from doing static matrix multiplication with neural connection weights (as done in all neural networks)."])],
          Json.obj [
            ("cell_type",
            Json.str "code"),
            ("collapsed",
            Json.bool false),
            ("input",
            Json.arr [
              Json.str "import nengo\n",
              Json.str "import numpy as np\n",
              Json.str "\n",
              Json.str "N = 100\n",
              Json.str "Amat = np.asarray([[.5, -.5]])\n",
              Json.str "Bmat = np.asarray([[0.58, -1.,], [.7, 0.1]])\n",
              Json.str "\n",
              Json.str "model = nengo.Model(\x27Matrix Multiplication\x27, seed=123)\n",
              Json.str "\n",
              Json.str "# Values should stay within the range (-radius,radius)\n",
              Json.str "radius = 1\n",
              Json.str "\n",
              Json.str "# Make 2 EnsembleArrays to store the input\n",
              Json.str "A = nengo.networks.EnsembleArray(nengo.LIF(N), Amat.size, radius=radius, label=\"A\")\n",
              Json.str "B = nengo.networks.EnsembleArray(nengo.LIF(N), Bmat.size, radius=radius, label=\"B\")\n",
              Json.str "\n",
              Json.str "# connect inputs to them so we can set their value\n",
              Json.str "inputA = nengo.Node(output=Amat.ravel())\n",
              Json.str "inputB = nengo.Node(output=Bmat.ravel())\n",
              Json.str "nengo.Connection(inputA, A.input)\n",
              Json.str "nengo.Connection(inputB, B.input)\n",
              Json.str "A_probe = nengo.Probe(A.output, \x27output\x27, sample_every=0.01, filter=0.01)\n",
              Json.str "B_probe = nengo.Probe(B.output, \x27output\x27, sample_every=0.01, filter=0.01)"]),
            ("language",
            Json.str "python"),
            ("metadata",
            Json.obj []),
            ("outputs",
            Json.arr [])],
          Json.obj [
            ("cell_type",
            Json.str "code"),
            ("collapsed",
            Json.bool false),
            ("input",
            Json.arr [
              Json.str "import matplotlib.pyplot as plt\n",
              Json.str "\n",
              Json.str "sim = nengo.Simulator(model)\n",
              Json.str "sim.run(1)\n",
              Json.str "plt.subplot(1, 2, 1)\n",
              Json.str "plt.title(\x27A\x27)\n",
              Json.str "plt.plot(sim.trange(dt=0.01), sim.data[A_probe])\n",
              Json.str "plt.subplot(1, 2, 2)\n",
              Json.str "plt.title(\x27B\x27)\n",
              Json.str "plt.plot(sim.trange(dt=0.01), sim.data[B_probe])"]),
            ("language",
            Json.str "python"),
            ("metadata",
            Json.obj []),
            ("outputs",
            Json.arr [])],
          Json.obj [
            ("cell_type",
            Json.str "code"),
            ("collapsed",
            Json.bool false),
            ("input",
            Json.arr [
              Json.str "# The C matix is composed of populations that each contain\n",
              Json.str "# one element of A and one element of B.\n",
              Json.str "# These elements will be multiplied together in the next step.\n",
              Json.str "C = nengo.networks.EnsembleArray(nengo.LIF(N),\n",
              Json.str "                                 Amat.size * Bmat.shape[1],\n",
              Json.str "                                 dimensions=2,\n",
              Json.str "                                 radius=1.5 * radius,\n",
              Json.str "                                 label=\"C\")\n",
              Json.str "\n",
              Json.str "# The appropriate encoders make the multiplication more accurate\n",
              Json.str "for ens in C.ensembles:\n",
              Json.str "    ens.encoders = np.tile([[1, 1], [-1, 1], [1, -1], [-1, -1]], (ens.n_neurons // 4, 1))\n",
              Json.str "\n",
              Json.str "\n",
              Json.str "# Determine the transformation matrices to get the correct pairwise\n",
              Json.str "# products computed.  This looks a bit like black magic but if\n",
              Json.str "# you manually try multiplying two matrices together, you can see\n",
              Json.str "# the underlying pattern.  Basically, we need to build up D1*D2*D3\n",
              Json.str "# pairs of numbers in C to compute the product of.  If i,j,k are the\n",
              Json.str "# indexes into the D1*D2*D3 products, we want to compute the product\n",
              Json.str "# of element (i,j) in A with the element (j,k) in B.  The index in\n",
              Json.str "# A of (i,j) is j+i*D2 and the index in B of (j,k) is k+j*D3.\n",
              Json.str "# The index in C is j+k*D2+i*D2*D3, multiplied by 2 since there are\n",
              Json.str "# two values per ensemble.  We add 1 to the B index so it goes into\n",
              Json.str "# the second value in the ensemble.\n",
              Json.str "transformA = np.zeros((C.dimensions, Amat.size))\n",
              Json.str "transformB = np.zeros((C.dimensions, Bmat.size))\n",
              Json.str "\n",
              Json.str "for i in range(Amat.shape[0]):\n",
              Json.str "    for j in range(Amat.shape[1]):\n",
              Json.str "        for k in range(Bmat.shape[1]):\n",
              Json.str "            tmp = (j + k * Amat.shape[1] + i * Bmat.size)\n",
              Json.str "            transformA[tmp * 2][j + i * Amat.shape[1]] = 1\n",
              Json.str "            transformB[tmp * 2 + 1][k + j * Bmat.shape[1]] = 1\n",
              Json.str "\n",
              Json.str "print(\"A->C\")\n",
              Json.str "print(transformA)\n",
              Json.str "print(\"B->C\")\n",
              Json.str "print(transformB)\n",
              Json.str "\n",
              Json.str "nengo.Connection(A.output, C.input, transform=transformA)\n",
              Json.str "nengo.Connection(B.output, C.input, transform=transformB)\n",
              Json.str "C_probe = nengo.Probe(C.output, \x27output\x27, sample_every=0.01, filter=0.01)"]),
            ("language",
            Json.str "python"),
            ("metadata",
            Json.obj []),
            ("outputs",
            Json.arr [])],
          Json.obj [
            ("cell_type",
            Json.str "code"),
            ("collapsed",
            Json.bool false),
            ("input",
            Json.arr [
              Json.str "# Look at C\n",
              Json.str "sim = nengo.Simulator(model)\n",
              Json.str "sim.run(1)\n",
              Json.str "plt.title(\x27C\x27)\n",
              Json.str "plt.plot(sim.trange(dt=0.01), sim.data[C_probe])"]),
            ("language",
            Json.str "python"),
            ("metadata",
            Json.obj []),
            ("outputs",
            Json.arr [])],
          Json.obj [
            ("cell_type",
            Json.str "code"),
            ("collapsed",
            Json.bool false),
            ("input",
            Json.arr [
              Json.str "# Now compute the products and do the appropriate summing\n",
              Json.str "D = nengo.networks.EnsembleArray(nengo.LIF(N),\n",
              Json.str "                                 Amat.shape[0] * Bmat.shape[1],\n",
              Json.str "                                 radius=radius)\n",
              Json.str "\n",
              Json.str "def product(x):\n",
              Json.str "    return x[0] * x[1]\n",
              Json.str "\n",
              Json.str "# The mapping for this transformation is much easier, since we want to\n",
              Json.str "# combine D2 pairs of elements (we sum D2 products together)\n",
              Json.str "transformC = np.zeros((D.dimensions, Bmat.size))\n",
              Json.str "for i in range(Bmat.size):\n",
              Json.str "    transformC[i // Bmat.shape[0]][i] = 1\n",
              Json.str "print(\"C->D\")\n",
              Json.str "print(transformC)\n",
              Json.str "\n",
              Json.str "prod = C.add_output(\"product\", product)\n",
              Json.str "\n",
              Json.str "nengo.Connection(prod, D.input, transform=transformC)\n",
              Json.str "D_probe = nengo.Probe(D.output, \x27output\x27, sample_every=0.01, filter=0.01)"]),
            ("language",
            Json.str "python"),
            ("metadata",
            Json.obj []),
            ("outputs",
            Json.arr [])],
          Json.obj [
            ("cell_type",
            Json.str "code"),
            ("collapsed",
            Json.bool false),
            ("input",
            Json.arr [
              Json.str "sim = nengo.Simulator(model)\n",
              Json.str "sim.run(1)\n",
              Json.str "\n",
              Json.str "plt.title(\"D\")\n",
              Json.str "plt.plot(sim.trange(dt=0.01), sim.data[D_probe])\n",
              Json.str "for d in np.dot(Amat, Bmat).flatten():\n",
              Json.str "    plt.axhline(d, color=\x27k\x27)"]),
            ("language",
            Json.str "python"),
            ("metadata",
            Json.obj []),
            ("outputs",
            Json.arr [])]]),
        ("metadata",
        Json.obj [])]])]

/-- The documents contained in the source file src/unnamed/part_000 (the ensemble-array notebook). -/
def part000Docs : List Json := [ensembleArrayDoc]

/-- The documents contained in the source file src/examples/controlled_oscillator.ipynb. -/
def controlledOscillatorFileDocs : List Json := [controlledOscillatorDoc]

/-- The documents contained in the source file src/examples/squaring.ipynb: the squaring notebook followed by the matrix-multiplication notebook, separated in the file by a packaging marker. -/
def squaringFileDocs : List Json := [squaringDoc, matrixMultiplicationDoc]

/-- All notebook documents of the repository, across the three source files. -/
def allNotebookDocs : List Json :=
  part000Docs ++ controlledOscillatorFileDocs ++ squaringFileDocs

/-- A source file parses as a single valid notebook document: it holds exactly
one JSON document and that document conforms to the notebook schema. -/
def fileIsSingleNotebookDoc (docs : List Json) : Bool :=
  docs.length == 1 && docs.all isNotebookDoc

/-!
## The squaring notebook

The code cell defines `square(x) = x[0] * x[0]`.  Real scalars are modelled as
rationals; indexing an empty vector fails, which is modelled by `Option`.
-/

/-- The squaring function from the squaring notebook: square(x) returns
x[0] * x[0]; on an empty input vector the indexing x[0] fails (none). -/
def square (x : List ℚ) : Option ℚ :=
  match x with
  | [] => none
  | x0 :: _ => some (x0 * x0)

/-!
## The controlled-oscillator notebook
-/

/-- Post-synaptic time constant of the feedback connection, tau = 0.1, from
the controlled-oscillator notebook. -/
def tau : ℚ := 1 / 10

/-- Frequency scale w_max = 10 from the controlled-oscillator notebook. -/
def w_max : ℚ := 10

/-- The feedback function of the controlled-oscillator notebook's code cell:
with x = (x0, x1, w) it returns
(x0 + w*w_max*tau*x1, x1 - w*w_max*tau*x0, 0). -/
def feedback (x : ℚ × ℚ × ℚ) : ℚ × ℚ × ℚ :=
  match x with
  | (x0, x1, w) => (x0 + w * w_max * tau * x1, x1 - w * w_max * tau * x0, 0)

/-- The feedback function derived in the controlled-oscillator notebook's own
markdown text for the dynamics matrix [[0, -w*w_max], [w*w_max, 0]]:
f_feedback(x) = x + tau * f(x) =
(x0 - tau*w*w_max*x1, x1 + tau*w*w_max*x0, 0).  Stated from the notebook's
displayed formula, to be compared with the `feedback` the code defines. -/
def feedbackDerived (x : ℚ × ℚ × ℚ) : ℚ × ℚ × ℚ :=
  match x with
  | (x0, x1, w) => (x0 - tau * w * w_max * x1, x1 + tau * w * w_max * x0, 0)

/-- The transform of the frequency-to-oscillator connection,
transform=[[0], [0], [1]], from the controlled-oscillator notebook. -/
def freqTransform : List (List ℚ) := [[0], [0], [1]]

/-!
## The matrix-multiplication notebook

The notebook multiplies a D1 x D2 matrix A (Amat, with D1 = Amat.shape[0],
D2 = Amat.shape[1]) by a D2 x D3 matrix B (Bmat, with D3 = Bmat.shape[1]).
Matrices are embedded as functions of row and column with explicit bounds,
and np.zeros arrays written to by index assignments are embedded as functions
updated pointwise by a fold over the loop's index ranges in execution order.
-/

/-- Pointwise update M[r][c] = v of a matrix represented as a function of row
and column (a numpy index assignment). -/
def setEntry (M : ℕ → ℕ → ℚ) (r c : ℕ) (v : ℚ) : ℕ → ℕ → ℚ :=
  fun r' c' => if r' = r ∧ c' = c then v else M r' c'

/-- The all-zero matrix (np.zeros). -/
def zeros : ℕ → ℕ → ℚ := fun _ _ => 0

/-- The index triples (i, j, k) traversed by the transform-building loop of
the matrix-multiplication notebook — i over range(Amat.shape[0]), j over
range(Amat.shape[1]), k over range(Bmat.shape[1]) — in execution order. -/
def loopTriples (D1 D2 D3 : ℕ) : List (ℕ × ℕ × ℕ) :=
  (List.range D1).flatMap (fun i =>
    (List.range D2).flatMap (fun j =>
      (List.range D3).map (fun k => (i, j, k))))

/-- One iteration of the transform-building loop, acting on the pair
(transformA, transformB): with tmp = j + k * Amat.shape[1] + i * Bmat.size
(Amat.shape[1] = D2, Bmat.size = D2*D3) it performs
transformA[tmp * 2][j + i * Amat.shape[1]] = 1 and
transformB[tmp * 2 + 1][k + j * Bmat.shape[1]] = 1. -/
def loopBody (D2 D3 : ℕ) (st : (ℕ → ℕ → ℚ) × (ℕ → ℕ → ℚ)) (t : ℕ × ℕ × ℕ) :
    (ℕ → ℕ → ℚ) × (ℕ → ℕ → ℚ) :=
  match t with
  | (i, j, k) =>
    let tmp := j + k * D2 + i * (D2 * D3)
    (setEntry st.1 (tmp * 2) (j + i * D2) 1,
     setEntry st.2 (tmp * 2 + 1) (k + j * D3) 1)

/-- The pair (transformA, transformB) built by the notebook's triple loop,
starting from np.zeros((C.dimensions, Amat.size)) and
np.zeros((C.dimensions, Bmat.size)). -/
def buildTransforms (D1 D2 D3 : ℕ) : ((ℕ → ℕ → ℚ) × (ℕ → ℕ → ℚ)) :=
  (loopTriples D1 D2 D3).foldl (loopBody D2 D3) (zeros, zeros)

/-- The transform matrix transformA of the connection A.output -> C.input. -/
def transformA (D1 D2 D3 : ℕ) : ℕ → ℕ → ℚ := (buildTransforms D1 D2 D3).1

/-- The transform matrix transformB of the connection B.output -> C.input. -/
def transformB (D1 D2 D3 : ℕ) : ℕ → ℕ → ℚ := (buildTransforms D1 D2 D3).2

/-- The (row, column) position written by the loop iteration t = (i, j, k)
into transformA. -/
def writeA (D2 D3 : ℕ) (t : ℕ × ℕ × ℕ) : ℕ × ℕ :=
  ((t.2.1 + t.2.2 * D2 + t.1 * (D2 * D3)) * 2, t.2.1 + t.1 * D2)

/-- The (row, column) position written by the loop iteration t = (i, j, k)
into transformB. -/
def writeB (D2 D3 : ℕ) (t : ℕ × ℕ × ℕ) : ℕ × ℕ :=
  ((t.2.1 + t.2.2 * D2 + t.1 * (D2 * D3)) * 2 + 1, t.2.2 + t.2.1 * D3)

/-- The transform matrix transformC of the connection prod -> D.input, built
by the loop: for i in range(Bmat.size): transformC[i // Bmat.shape[0]][i] = 1,
starting from np.zeros((D.dimensions, Bmat.size)), with Bmat.shape[0] = D2 and
Bmat.size = D2 * D3. -/
def transformC (D2 D3 : ℕ) : ℕ → ℕ → ℚ :=
  (List.range (D2 * D3)).foldl (fun M i => setEntry M (i / D2) i 1) zeros

/-- The (row, column) position written by iteration i of the transformC
loop. -/
def writeC (D2 : ℕ) (i : ℕ) : ℕ × ℕ := (i / D2, i)

/-- Row-major flattening (numpy ravel) of a matrix whose rows have rowLen
entries. -/
def ravel (rowLen : ℕ) (M : ℕ → ℕ → ℚ) : ℕ → ℚ :=
  fun c => M (c / rowLen) (c % rowLen)

/-- Modelled from the spec: a Connection carrying a transform matrix applies
the matrix to the transmitted vector before delivery (the framework class
nengo.Connection belongs to the repository but is not among the packaged
source files).  This gives row r of the product of matrix M with a vector v
of ncols entries. -/
def matVec (ncols : ℕ) (M : ℕ → ℕ → ℚ) (v : ℕ → ℚ) (r : ℕ) : ℚ :=
  ∑ c in Finset.range ncols, M r c * v c

/-- Modelled from the spec: signals arriving at the same input add, so
dimension d of the input of ensemble array C receives the sum of the two
connections A.output -> C.input (transformA applied to the flattened A) and
B.output -> C.input (transformB applied to the flattened B). -/
def Cinput (D1 D2 D3 : ℕ) (A B : ℕ → ℕ → ℚ) (d : ℕ) : ℚ :=
  matVec (D1 * D2) (transformA D1 D2 D3) (ravel D2 A) d +
  matVec (D2 * D3) (transformB D1 D2 D3) (ravel D3 B) d

/-- The product function of the matrix-multiplication notebook:
product(x) = x[0] * x[1]; indexing fails (none) on a vector of fewer than two
entries. -/
def product (x : List ℚ) : Option ℚ :=
  match x with
  | x0 :: x1 :: _ => some (x0 * x1)
  | _ => none

/-- Modelled from the spec: an EnsembleArray partitions the represented
signal's dimensions across independent sub-populations — sub-ensemble e of an
array whose ensembles each represent d dimensions holds dimensions
d*e, ..., d*e + d - 1 of the array's signal x — and an output added with
add_output applies its function separately to each sub-ensemble's own slice.
The framework class nengo.networks.EnsembleArray belongs to the repository
but is not among the packaged source files. -/
def ensembleArrayOutput (d : ℕ) (f : List ℚ → Option ℚ) (x : ℕ → ℚ) (e : ℕ) :
    Option ℚ :=
  f ((List.range d).map (fun t => x (d * e + t)))

/-- Component e of the product output added on C with
C.add_output("product", product): the product function applied to
sub-ensemble e's pair of dimensions (2e, 2e + 1) of C's signal. -/
def prodOutput (D1 D2 D3 : ℕ) (A B : ℕ → ℕ → ℚ) (e : ℕ) : ℚ :=
  (ensembleArrayOutput 2 product (Cinput D1 D2 D3 A B) e).getD 0

/-- Modelled from the spec: a Connection accepts a transform matrix only when
its shape matches the target and source dimensionalities; a dimension
mismatch or invalid transform surfaces as a framework failure (spec sec. 7),
modelled as none.  On a matching shape the matrix is applied to the
transmitted vector. -/
def connectTransform (targetDims sourceDims rows cols : ℕ)
    (M : ℕ → ℕ → ℚ) (v : ℕ → ℚ) : Option (ℕ → ℚ) :=
  if rows = targetDims ∧ cols = sourceDims then some (matVec cols M v)
  else none

/-- Dimension r of the input delivered to ensemble array D through
nengo.Connection(prod, D.input, transform=transformC): transformC is
allocated by np.zeros((D.dimensions, Bmat.size)) with shape
(D1*D3, D2*D3), while the product output prod of C has D1*D2*D3 dimensions
and D.input has D1*D3; the framework accepts the connection only when these
shapes match, and then delivers row r of transformC applied to the product
output. -/
def Dinput (D1 D2 D3 : ℕ) (A B : ℕ → ℕ → ℚ) (r : ℕ) : Option ℚ :=
  (connectTransform (D1 * D3) (D1 * D2 * D3) (D1 * D3) (D2 * D3)
      (transformC D2 D3) (prodOutput D1 D2 D3 A B)).map (fun v => v r)

/-!
## Generic lemmas on the index-assignment folds
-/

/-- A fold of index assignments that all write the value 1 leaves a cell
unchanged when no iteration writes to it. -/
theorem foldl_set_not_mem {γ : Type*} (rc : γ → ℕ × ℕ) :
    ∀ (l : List γ) (M : ℕ → ℕ → ℚ) (r' c' : ℕ),
      (¬ ∃ t ∈ l, rc t = (r', c')) →
      (l.foldl (fun M t => setEntry M (rc t).1 (rc t).2 1) M) r' c' = M r' c'
  | [], _, _, _, _ => rfl
  | t :: l, M, r', c', h => by
    simp only [List.foldl_cons]
    have h1 : ¬ ∃ u ∈ l, rc u = (r', c') := by
      rintro ⟨u, hu, hequ⟩
      exact h ⟨u, List.mem_cons_of_mem _ hu, hequ⟩
    rw [foldl_set_not_mem rc l _ r' c' h1]
    have h2 : rc t ≠ (r', c') := fun he => h ⟨t, List.mem_cons_self t l, he⟩
    simp only [setEntry]
    rw [if_neg]
    rintro ⟨h3, h4⟩
    exact h2 (Prod.ext h3.symm h4.symm)

/-- A fold of index assignments that all write the value 1 sets a cell to 1
when some iteration writes to it. -/
theorem foldl_set_mem {γ : Type*} (rc : γ → ℕ × ℕ) :
    ∀ (l : List γ) (M : ℕ → ℕ → ℚ) (r' c' : ℕ),
      (∃ t ∈ l, rc t = (r', c')) →
      (l.foldl (fun M t => setEntry M (rc t).1 (rc t).2 1) M) r' c' = 1
  | [], _, _, _, h => absurd h (by simp)
  | t :: l, M, r', c', h => by
    simp only [List.foldl_cons]
    by_cases hl : ∃ u ∈ l, rc u = (r', c')
    · exact foldl_set_mem rc l _ r' c' hl
    · rw [foldl_set_not_mem rc l _ r' c' hl]
      have ht : rc t = (r', c') := by
        rcases h with ⟨u, hu, hequ⟩
        rcases List.mem_cons.mp hu with h' | h'
        · rwa [← h']
        · exact absurd ⟨u, h', hequ⟩ hl
      simp [setEntry, ht]

/-- Membership in the loop's index-triple list is exactly the three range
bounds. -/
theorem mem_loopTriples {D1 D2 D3 i j k : ℕ} :
    (i, j, k) ∈ loopTriples D1 D2 D3 ↔ i < D1 ∧ j < D2 ∧ k < D3 := by
  simp only [loopTriples, List.mem_flatMap, List.mem_map, List.mem_range,
    Prod.mk.injEq]
  constructor
  · rintro ⟨a, ha, b, hb, c, hc, h1, h2, h3⟩
    subst h1; subst h2; subst h3
    exact ⟨ha, hb, hc⟩
  · rintro ⟨hi, hj, hk⟩
    exact ⟨i, hi, j, hj, k, hk, rfl, rfl, rfl⟩

/-- The triple-loop fold acts componentwise: on the first component it folds
the writeA assignments, on the second the writeB assignments. -/
theorem buildTransforms_fold (D2 D3 : ℕ) :
    ∀ (l : List (ℕ × ℕ × ℕ)) (Ma Mb : ℕ → ℕ → ℚ),
      l.foldl (loopBody D2 D3) (Ma, Mb) =
        (l.foldl (fun M t => setEntry M (writeA D2 D3 t).1 (writeA D2 D3 t).2 1) Ma,
         l.foldl (fun M t => setEntry M (writeB D2 D3 t).1 (writeB D2 D3 t).2 1) Mb)
  | [], _, _ => rfl
  | t :: l, Ma, Mb => by
    rcases t with ⟨i, j, k⟩
    simp only [List.foldl_cons]
    exact buildTransforms_fold D2 D3 l _ _

/-- transformA is the fold of the writeA assignments over the loop
triples. -/
theorem transformA_spec (D1 D2 D3 : ℕ) :
    transformA D1 D2 D3 =
      (loopTriples D1 D2 D3).foldl
        (fun M t => setEntry M (writeA D2 D3 t).1 (writeA D2 D3 t).2 1) zeros := by
  unfold transformA buildTransforms
  rw [buildTransforms_fold]

/-- transformB is the fold of the writeB assignments over the loop
triples. -/
theorem transformB_spec (D1 D2 D3 : ℕ) :
    transformB D1 D2 D3 =
      (loopTriples D1 D2 D3).foldl
        (fun M t => setEntry M (writeB D2 D3 t).1 (writeB D2 D3 t).2 1) zeros := by
  unfold transformB buildTransforms
  rw [buildTransforms_fold]

/-!
## Index arithmetic
-/

/-- Uniqueness of a base-b digit decomposition: x + p*b with x < b determines
x and p. -/
theorem digit_unique {b x y p q : ℕ} (hx : x < b) (hy : y < b)
    (h : x + p * b = y + q * b) : x = y ∧ p = q := by
  have hb : 0 < b := lt_of_le_of_lt (Nat.zero_le x) hx
  constructor
  · calc x = (x + p * b) % b := by
          rw [Nat.add_mul_mod_self_right, Nat.mod_eq_of_lt hx]
      _ = (y + q * b) % b := by rw [h]
      _ = y := by rw [Nat.add_mul_mod_self_right, Nat.mod_eq_of_lt hy]
  · calc p = (x + p * b) / b := by
          rw [Nat.add_mul_div_right _ _ hb, Nat.div_eq_of_lt hx, Nat.zero_add]
      _ = (y + q * b) / b := by rw [h]
      _ = q := by rw [Nat.add_mul_div_right _ _ hb, Nat.div_eq_of_lt hy, Nat.zero_add]

/-- The pair index j + k*D2 + i*D2*D3 determines the triple (i, j, k) when
j < D2 and k < D3. -/
theorem tripleIndex_inj {D2 D3 i j k i' j' k' : ℕ} (hj : j < D2) (hk : k < D3)
    (hj' : j' < D2) (hk' : k' < D3)
    (h : j + k * D2 + i * D2 * D3 = j' + k' * D2 + i' * D2 * D3) :
    i = i' ∧ j = j' ∧ k = k' := by
  have h2 : j + (k + i * D3) * D2 = j' + (k' + i' * D3) * D2 := by
    have e : ∀ a b c : ℕ, a + (b + c * D3) * D2 = a + b * D2 + c * D2 * D3 := by
      intro a b c; ring
    rw [e, e, h]
  obtain ⟨hjj, h3⟩ := digit_unique hj hj' h2
  obtain ⟨hkk, hii⟩ := digit_unique hk hk' h3
  exact ⟨hii, hjj, hkk⟩

/-!
## Entry values of the transforms
-/

/-- The loop sets transformA[2*(j + k*D2 + i*D2*D3)][j + i*D2] = 1. -/
theorem transformA_eq_one {D1 D2 D3 i j k : ℕ}
    (hi : i < D1) (hj : j < D2) (hk : k < D3) :
    transformA D1 D2 D3 (2 * (j + k * D2 + i * D2 * D3)) (j + i * D2) = 1 := by
  rw [transformA_spec]
  apply foldl_set_mem
  refine ⟨(i, j, k), mem_loopTriples.mpr ⟨hi, hj, hk⟩, ?_⟩
  simp only [writeA, Prod.mk.injEq]
  exact ⟨by ring, trivial⟩

/-- The loop sets transformB[2*(j + k*D2 + i*D2*D3) + 1][k + j*D3] = 1. -/
theorem transformB_eq_one {D1 D2 D3 i j k : ℕ}
    (hi : i < D1) (hj : j < D2) (hk : k < D3) :
    transformB D1 D2 D3 (2 * (j + k * D2 + i * D2 * D3) + 1) (k + j * D3) = 1 := by
  rw [transformB_spec]
  apply foldl_set_mem
  refine ⟨(i, j, k), mem_loopTriples.mpr ⟨hi, hj, hk⟩, ?_⟩
  simp only [writeB, Prod.mk.injEq]
  exact ⟨by ring, trivial⟩

/-- Entries of transformA not written by any loop iteration stay zero. -/
theorem transformA_eq_zero {D1 D2 D3 r c : ℕ}
    (h : ¬ ∃ i' j' k', i' < D1 ∧ j' < D2 ∧ k' < D3 ∧
      r = 2 * (j' + k' * D2 + i' * D2 * D3) ∧ c = j' + i' * D2) :
    transformA D1 D2 D3 r c = 0 := by
  rw [transformA_spec, foldl_set_not_mem]
  · rfl
  · rintro ⟨⟨i', j', k'⟩, hmem, heq⟩
    obtain ⟨hi', hj', hk'⟩ := mem_loopTriples.mp hmem
    simp only [writeA, Prod.mk.injEq] at heq
    refine h ⟨i', j', k', hi', hj', hk', ?_, heq.2.symm⟩
    rw [← heq.1]; ring

/-- Entries of transformB not written by any loop iteration stay zero. -/
theorem transformB_eq_zero {D1 D2 D3 r c : ℕ}
    (h : ¬ ∃ i' j' k', i' < D1 ∧ j' < D2 ∧ k' < D3 ∧
      r = 2 * (j' + k' * D2 + i' * D2 * D3) + 1 ∧ c = k' + j' * D3) :
    transformB D1 D2 D3 r c = 0 := by
  rw [transformB_spec, foldl_set_not_mem]
  · rfl
  · rintro ⟨⟨i', j', k'⟩, hmem, heq⟩
    obtain ⟨hi', hj', hk'⟩ := mem_loopTriples.mp hmem
    simp only [writeB, Prod.mk.injEq] at heq
    refine h ⟨i', j', k', hi', hj', hk', ?_, heq.2.symm⟩
    rw [← heq.1]; ring

/-- transformB has no entry in any even row (its writes all go to odd
rows). -/
theorem transformB_even_row (D1 D2 D3 m c : ℕ) :
    transformB D1 D2 D3 (2 * m) c = 0 := by
  apply transformB_eq_zero
  rintro ⟨i', j', k', _, _, _, hrow, _⟩
  omega

/-- transformA has no entry in any odd row (its writes all go to even
rows). -/
theorem transformA_odd_row (D1 D2 D3 m c : ℕ) :
    transformA D1 D2 D3 (2 * m + 1) c = 0 := by
  apply transformA_eq_zero
  rintro ⟨i', j', k', _, _, _, hrow, _⟩
  omega

/-!
## Applying the transforms to the flattened operands
-/

/-- Applying transformA to the row-major flattening of A delivers A(i, j) on
row 2*(j + k*D2 + i*D2*D3). -/
theorem matVec_transformA (D1 D2 D3 : ℕ) (A : ℕ → ℕ → ℚ) {i j k : ℕ}
    (hi : i < D1) (hj : j < D2) (hk : k < D3) :
    matVec (D1 * D2) (transformA D1 D2 D3) (ravel D2 A)
      (2 * (j + k * D2 + i * D2 * D3)) = A i j := by
  unfold matVec
  have hc0 : j + i * D2 < D1 * D2 := by
    have h1 : j + i * D2 < (i + 1) * D2 := by rw [add_mul, one_mul]; omega
    have h2 : (i + 1) * D2 ≤ D1 * D2 := Nat.mul_le_mul_right _ hi
    omega
  rw [Finset.sum_eq_single_of_mem (j + i * D2) (Finset.mem_range.mpr hc0)]
  · rw [transformA_eq_one hi hj hk, one_mul]
    unfold ravel
    have hdiv : (j + i * D2) / D2 = i := by
      rw [Nat.add_mul_div_right _ _ (by omega : 0 < D2), Nat.div_eq_of_lt hj,
        Nat.zero_add]
    have hmod : (j + i * D2) % D2 = j := by
      rw [Nat.add_mul_mod_self_right, Nat.mod_eq_of_lt hj]
    rw [hdiv, hmod]
  · intro c hc hne
    rw [transformA_eq_zero, zero_mul]
    rintro ⟨i', j', k', hi', hj', hk', hrow, hcol⟩
    have htmp : j + k * D2 + i * D2 * D3 = j' + k' * D2 + i' * D2 * D3 :=
      Nat.eq_of_mul_eq_mul_left (by omega) hrow
    obtain ⟨hii, hjj, hkk⟩ := tripleIndex_inj hj hk hj' hk' htmp
    exact hne (by rw [hcol, ← hii, ← hjj])

/-- Applying transformB to the row-major flattening of B delivers B(j, k) on
row 2*(j + k*D2 + i*D2*D3) + 1. -/
theorem matVec_transformB (D1 D2 D3 : ℕ) (B : ℕ → ℕ → ℚ) {i j k : ℕ}
    (hi : i < D1) (hj : j < D2) (hk : k < D3) :
    matVec (D2 * D3) (transformB D1 D2 D3) (ravel D3 B)
      (2 * (j + k * D2 + i * D2 * D3) + 1) = B j k := by
  unfold matVec
  have hc0 : k + j * D3 < D2 * D3 := by
    have h1 : k + j * D3 < (j + 1) * D3 := by rw [add_mul, one_mul]; omega
    have h2 : (j + 1) * D3 ≤ D2 * D3 := Nat.mul_le_mul_right _ hj
    omega
  rw [Finset.sum_eq_single_of_mem (k + j * D3) (Finset.mem_range.mpr hc0)]
  · rw [transformB_eq_one hi hj hk, one_mul]
    unfold ravel
    have hdiv : (k + j * D3) / D3 = j := by
      rw [Nat.add_mul_div_right _ _ (by omega : 0 < D3), Nat.div_eq_of_lt hk,
        Nat.zero_add]
    have hmod : (k + j * D3) % D3 = k := by
      rw [Nat.add_mul_mod_self_right, Nat.mod_eq_of_lt hk]
    rw [hdiv, hmod]
  · intro c hc hne
    rw [transformB_eq_zero, zero_mul]
    rintro ⟨i', j', k', hi', hj', hk', hrow, hcol⟩
    have htmp : j + k * D2 + i * D2 * D3 = j' + k' * D2 + i' * D2 * D3 := by
      have := Nat.succ_injective hrow
      exact Nat.eq_of_mul_eq_mul_left (by omega) this
    obtain ⟨hii, hjj, hkk⟩ := tripleIndex_inj hj hk hj' hk' htmp
    exact hne (by rw [hcol, ← hjj, ← hkk])

/-!
## The signal entering C and the product output
-/

/-- The first value of pair 2*(j + k*D2 + i*D2*D3) of C's input is A(i, j):
transformA delivers it and transformB contributes nothing to even rows. -/
theorem Cinput_fst (D1 D2 D3 : ℕ) (A B : ℕ → ℕ → ℚ) {i j k : ℕ}
    (hi : i < D1) (hj : j < D2) (hk : k < D3) :
    Cinput D1 D2 D3 A B (2 * (j + k * D2 + i * D2 * D3)) = A i j := by
  unfold Cinput
  rw [matVec_transformA D1 D2 D3 A hi hj hk]
  have hz : matVec (D2 * D3) (transformB D1 D2 D3) (ravel D3 B)
      (2 * (j + k * D2 + i * D2 * D3)) = 0 := by
    unfold matVec
    apply Finset.sum_eq_zero
    intro c _
    rw [transformB_even_row, zero_mul]
  rw [hz, add_zero]

/-- The second value of pair 2*(j + k*D2 + i*D2*D3) of C's input is B(j, k):
transformB delivers it and transformA contributes nothing to odd rows. -/
theorem Cinput_snd (D1 D2 D3 : ℕ) (A B : ℕ → ℕ → ℚ) {i j k : ℕ}
    (hi : i < D1) (hj : j < D2) (hk : k < D3) :
    Cinput D1 D2 D3 A B (2 * (j + k * D2 + i * D2 * D3) + 1) = B j k := by
  unfold Cinput
  rw [matVec_transformB D1 D2 D3 B hi hj hk]
  have hz : matVec (D1 * D2) (transformA D1 D2 D3) (ravel D2 A)
      (2 * (j + k * D2 + i * D2 * D3) + 1) = 0 := by
    unfold matVec
    apply Finset.sum_eq_zero
    intro c _
    rw [transformA_odd_row, zero_mul]
  rw [hz, zero_add]

/-- The product output of C multiplies the two dimensions of each
sub-ensemble. -/
theorem prodOutput_eq (D1 D2 D3 : ℕ) (A B : ℕ → ℕ → ℚ) (e : ℕ) :
    prodOutput D1 D2 D3 A B e =
      Cinput D1 D2 D3 A B (2 * e) * Cinput D1 D2 D3 A B (2 * e + 1) := by
  simp [prodOutput, ensembleArrayOutput, product, List.range_succ]

/-- On pair j + k*D2 + i*D2*D3 the product output of C is A(i, j)*B(j, k). -/
theorem prodOutput_pair (D1 D2 D3 : ℕ) (A B : ℕ → ℕ → ℚ) {i j k : ℕ}
    (hi : i < D1) (hj : j < D2) (hk : k < D3) :
    prodOutput D1 D2 D3 A B (j + k * D2 + i * D2 * D3) = A i j * B j k := by
  rw [prodOutput_eq, Cinput_fst D1 D2 D3 A B hi hj hk,
    Cinput_snd D1 D2 D3 A B hi hj hk]

/-!
## Entry values of transformC
-/

/-- transformC is the fold of the writeC assignments over range(Bmat.size). -/
theorem transformC_spec (D2 D3 : ℕ) :
    transformC D2 D3 =
      (List.range (D2 * D3)).foldl
        (fun M i => setEntry M (writeC D2 i).1 (writeC D2 i).2 1) zeros := rfl

/-- The loop sets transformC[c // D2][c] = 1 for every c < D2*D3. -/
theorem transformC_eq_one {D2 D3 c : ℕ} (hc : c < D2 * D3) :
    transformC D2 D3 (c / D2) c = 1 := by
  rw [transformC_spec]
  exact foldl_set_mem _ _ _ _ _ ⟨c, List.mem_range.mpr hc, rfl⟩

/-- Entries of transformC not written by the loop stay zero. -/
theorem transformC_eq_zero {D2 D3 r c : ℕ} (h : ¬ (c < D2 * D3 ∧ r = c / D2)) :
    transformC D2 D3 r c = 0 := by
  rw [transformC_spec, foldl_set_not_mem]
  · rfl
  · rintro ⟨u, hu, hequ⟩
    simp only [writeC, Prod.mk.injEq] at hequ
    refine h ⟨?_, ?_⟩
    · rw [← hequ.2]; exact List.mem_range.mp hu
    · rw [← hequ.1, hequ.2]

/-!
## Claim theorems
-/

/-- C1: in the matrix-multiplication notebook the transform-building loop
sets transformA[2*(j + k*D2 + i*D2*D3)][j + i*D2] = 1 and
transformB[2*(j + k*D2 + i*D2*D3) + 1][k + j*D3] = 1 for all i < D1, j < D2,
k < D3, leaves every other entry of both transforms zero, and hence applying
transformA to the flattened A and transformB to the flattened B delivers
exactly A(i, j) as the first and B(j, k) as the second component of the pair
with index j + k*D2 + i*D2*D3. -/
theorem transform_build_correct (D1 D2 D3 : ℕ) (A B : ℕ → ℕ → ℚ) (i j k : ℕ)
    (hi : i < D1) (hj : j < D2) (hk : k < D3) :
    transformA D1 D2 D3 (2 * (j + k * D2 + i * D2 * D3)) (j + i * D2) = 1 ∧
    transformB D1 D2 D3 (2 * (j + k * D2 + i * D2 * D3) + 1) (k + j * D3) = 1 ∧
    (∀ r c, (¬ ∃ i' j' k', i' < D1 ∧ j' < D2 ∧ k' < D3 ∧
        r = 2 * (j' + k' * D2 + i' * D2 * D3) ∧ c = j' + i' * D2) →
      transformA D1 D2 D3 r c = 0) ∧
    (∀ r c, (¬ ∃ i' j' k', i' < D1 ∧ j' < D2 ∧ k' < D3 ∧
        r = 2 * (j' + k' * D2 + i' * D2 * D3) + 1 ∧ c = k' + j' * D3) →
      transformB D1 D2 D3 r c = 0) ∧
    matVec (D1 * D2) (transformA D1 D2 D3) (ravel D2 A)
      (2 * (j + k * D2 + i * D2 * D3)) = A i j ∧
    matVec (D2 * D3) (transformB D1 D2 D3) (ravel D3 B)
      (2 * (j + k * D2 + i * D2 * D3) + 1) = B j k :=
  ⟨transformA_eq_one hi hj hk, transformB_eq_one hi hj hk,
   fun _ _ h => transformA_eq_zero h, fun _ _ h => transformB_eq_zero h,
   matVec_transformA D1 D2 D3 A hi hj hk, matVec_transformB D1 D2 D3 B hi hj hk⟩

/-- Witness for C1 at D1 = 1, D2 = 2, D3 = 2, i = 0, j = 1, k = 0 with
concrete operand matrices. -/
theorem transform_build_correct_witness :
    0 < 1 ∧ 1 < 2 ∧ 0 < 2 ∧
    transformA 1 2 2 (2 * (1 + 0 * 2 + 0 * 2 * 2)) (1 + 0 * 2) = 1 ∧
    matVec (1 * 2) (transformA 1 2 2) (ravel 2 (fun r c => r + 3 * c))
      (2 * (1 + 0 * 2 + 0 * 2 * 2)) = (fun r c => (r : ℚ) + 3 * c) 0 1 :=
  ⟨by decide, by decide, by decide,
   (transform_build_correct 1 2 2 (fun r c => (r : ℚ) + 3 * c)
      (fun r c => (r : ℚ) - c) 0 1 0 (by decide) (by decide) (by decide)).1,
   (transform_build_correct 1 2 2 (fun r c => (r : ℚ) + 3 * c)
      (fun r c => (r : ℚ) - c) 0 1 0 (by decide) (by decide)
      (by decide)).2.2.2.2.1⟩

/-- C2 (amended): when A has a single row (D1 = 1, the notebook's own case),
composing transformA/transformB, the per-pair product, and transformC yields
the flattened matrix product: the connection's shapes match and output
component (i, k) equals the sum over j < D2 of A(i, j)*B(j, k).  For D1 > 1
transformC, allocated with Bmat.size = D2*D3 columns for the
D1*D2*D3-dimensional product output, is a dimension mismatch the framework
rejects, so the composition delivers no value. -/
theorem matmul_composition_correct (D2 D3 : ℕ) (A B : ℕ → ℕ → ℚ) (i k : ℕ)
    (hi : i < 1) (hk : k < D3) :
    Dinput 1 D2 D3 A B (k + i * D3) =
      some (∑ j in Finset.range D2, A i j * B j k) := by
  have hi0 : i = 0 := by omega
  subst hi0
  simp only [Nat.zero_mul, Nat.add_zero]
  unfold Dinput connectTransform
  rw [if_pos ⟨rfl, by ring⟩, Option.map_some']
  refine congrArg some ?_
  unfold matVec
  have himg : (Finset.range D2).image (fun j => j + k * D2) ⊆
      Finset.range (D2 * D3) := by
    intro c hc
    simp only [Finset.mem_image, Finset.mem_range] at hc
    obtain ⟨j, hj, rfl⟩ := hc
    have h1 : j + k * D2 < (k + 1) * D2 := by rw [add_mul, one_mul]; omega
    have h2 : (k + 1) * D2 ≤ D3 * D2 := Nat.mul_le_mul_right _ hk
    have h3 : D3 * D2 = D2 * D3 := Nat.mul_comm _ _
    exact Finset.mem_range.mpr (by omega)
  have hzero : ∀ c ∈ Finset.range (D2 * D3),
      c ∉ (Finset.range D2).image (fun j => j + k * D2) →
      transformC D2 D3 k c * prodOutput 1 D2 D3 A B c = 0 := by
    intro c hc hcn
    have hcz : transformC D2 D3 k c = 0 := by
      apply transformC_eq_zero
      rintro ⟨hlt, hrk⟩
      apply hcn
      have hD2 : 0 < D2 := by
        rcases Nat.eq_zero_or_pos D2 with h0 | h0
        · rw [h0] at hlt; simp at hlt
        · exact h0
      refine Finset.mem_image.mpr
        ⟨c % D2, Finset.mem_range.mpr (Nat.mod_lt _ hD2), ?_⟩
      rw [hrk]
      exact Nat.mod_add_div' c D2
    rw [hcz, zero_mul]
  rw [← Finset.sum_subset himg hzero]
  rw [Finset.sum_image (by intro a _ b _ h; exact Nat.add_right_cancel h)]
  apply Finset.sum_congr rfl
  intro j hj
  have hj' : j < D2 := Finset.mem_range.mp hj
  have hlt : j + k * D2 < D2 * D3 :=
    Finset.mem_range.mp (himg (Finset.mem_image.mpr ⟨j, hj, rfl⟩))
  have hdiv : (j + k * D2) / D2 = k := by
    rw [Nat.add_mul_div_right _ _ (by omega : 0 < D2), Nat.div_eq_of_lt hj',
      Nat.zero_add]
  have h1 : transformC D2 D3 k (j + k * D2) = 1 := by
    have h2 := transformC_eq_one hlt
    rwa [hdiv] at h2
  rw [h1, one_mul]
  have h3 := prodOutput_pair 1 D2 D3 A B (show 0 < 1 by omega) hj' hk
  simpa using h3

/-- Witness for C2 at D2 = 2, D3 = 2, i = 0, k = 1 with concrete operand
matrices. -/
theorem matmul_composition_correct_witness :
    0 < 1 ∧ 1 < 2 ∧
    Dinput 1 2 2 (fun r c => (r : ℚ) + 3 * c) (fun r c => (r : ℚ) - c)
        (1 + 0 * 2) =
      some (∑ j in Finset.range 2,
        (fun r c => (r : ℚ) + 3 * c) 0 j * (fun r c => (r : ℚ) - c) j 1) :=
  ⟨by decide, by decide,
   matmul_composition_correct 2 2 (fun r c => (r : ℚ) + 3 * c)
     (fun r c => (r : ℚ) - c) 0 1 (by decide) (by decide)⟩

/-- C2 counterexample: for D1 = 2, D2 = 1, D3 = 1 with A the all-ones 2 x 1
matrix and B the all-ones 1 x 1 matrix, the composed pipeline does not
deliver the matrix-product entry sum over j < 1 of A(1, j)*B(j, 0) = 1 at
output component (i, k) = (1, 0): transformC is allocated with
Bmat.size = 1 column for the 2-dimensional product output, a dimension
mismatch the framework rejects, so no value is delivered at all. -/
theorem matmul_composition_counterexample :
    Dinput 2 1 1 (fun _ _ => 1) (fun _ _ => 1) (0 + 1 * 1) ≠
      some (∑ j in Finset.range 1,
        (fun _ _ => (1 : ℚ)) 1 j * (fun _ _ => (1 : ℚ)) j 0) := by
  have hnone : Dinput 2 1 1 (fun _ _ => 1) (fun _ _ => 1) (0 + 1 * 1) = none := by
    unfold Dinput connectTransform
    rw [if_neg (by decide)]
    rfl
  rw [hnone]
  exact fun h => Option.noConfusion h

/-- C3 (amended): every notebook document contained in the three source files
conforms to the notebook schema — top level with metadata, nbformat and
worksheets, every worksheet's cells tagged markdown or code — and the files
hold one, one and two such documents respectively (the squaring source file
holds the squaring and matrix-multiplication notebooks, separated by a
packaging marker). -/
theorem notebook_documents_conform :
    (part000Docs.all isNotebookDoc) = true ∧
    (controlledOscillatorFileDocs.all isNotebookDoc) = true ∧
    (squaringFileDocs.all isNotebookDoc) = true ∧
    part000Docs.length = 1 ∧ controlledOscillatorFileDocs.length = 1 ∧
    squaringFileDocs.length = 2 := by
  decide

/-- C3 counterexample: the squaring source file does not parse as a single
notebook document — it holds two complete JSON notebook documents. -/
theorem squaring_file_not_single_doc :
    fileIsSingleNotebookDoc squaringFileDocs = false := by
  decide

/-- C4: the feedback function the controlled-oscillator code cell defines
contradicts the feedback function derived in the same notebook's markdown
text.  At x = (0, 1, 1) the code returns (1, 1, 0) while the derived
function gives (-1, 1, 0): the code has both signs flipped. -/
theorem feedback_sign_flip :
    feedback (0, 1, 1) = (1, 1, 0) ∧
    feedbackDerived (0, 1, 1) = (-1, 1, 0) ∧
    feedback (0, 1, 1) ≠ feedbackDerived (0, 1, 1) := by
  refine ⟨?_, ?_, ?_⟩ <;>
    norm_num [feedback, feedbackDerived, tau, w_max, Prod.ext_iff]

/-- C5: the square function of the squaring notebook returns the square of
its input's first component on every nonempty input vector; the result is
nonnegative, and on a scalar input [x] it is x*x. -/
theorem square_correct (x0 : ℚ) (xs : List ℚ) :
    square (x0 :: xs) = some (x0 * x0) ∧ 0 ≤ x0 * x0 ∧
    square [x0] = some (x0 * x0) :=
  ⟨rfl, mul_self_nonneg x0, rfl⟩

/-- C6: the oscillation dimensions and the frequency dimension are written
disjointly — the feedback function's third output component is 0 for every
input, and the frequency-to-oscillator transform [[0], [0], [1]] is zero in
its first two rows. -/
theorem frequency_dimension_disjoint :
    (∀ x : ℚ × ℚ × ℚ, (feedback x).2.2 = 0) ∧
    freqTransform.length = 3 ∧
    freqTransform[0]? = some [0] ∧
    freqTransform[1]? = some [0] ∧
    freqTransform[2]? = some [1] := by
  refine ⟨fun x => ?_, rfl, rfl, rfl, rfl⟩
  rcases x with ⟨a, b, c⟩
  rfl

/-- C7: in every notebook document of the three source files, every code
cell's outputs field is present and is the empty list. -/
theorem outputs_not_persisted :
    (allNotebookDocs.all docOutputsEmpty) = true := by
  decide

/-- C9: an EnsembleArray output never mixes sub-ensembles — the output of
sub-ensemble e of an array whose ensembles each represent d dimensions
depends only on that sub-ensemble's own dimensions d*e, ..., d*e + d - 1:
two array signals agreeing there give sub-ensemble e the same output,
whatever the per-ensemble function (in the notebooks, identity or
product). -/
theorem ensembleArray_no_mixing (d : ℕ) (f : List ℚ → Option ℚ)
    (x y : ℕ → ℚ) (e : ℕ)
    (h : ∀ t, t < d → x (d * e + t) = y (d * e + t)) :
    ensembleArrayOutput d f x e = ensembleArrayOutput d f y e := by
  unfold ensembleArrayOutput
  congr 1
  have hmap : ∀ (l : List ℕ), (∀ t ∈ l, t < d) →
      l.map (fun t => x (d * e + t)) = l.map (fun t => y (d * e + t)) := by
    intro l
    induction l with
    | nil => intro _; rfl
    | cons a l ih =>
      intro hl
      simp only [List.map_cons]
      rw [h a (hl a (by simp)), ih (fun t ht => hl t (by simp [ht]))]
  exact hmap (List.range d) (fun t ht => List.mem_range.mp ht)

/-- Witness for C9: the product output of sub-ensemble 0 of a 2-dimensional
ensemble array agrees on two signals that agree on dimensions 0 and 1 but
differ elsewhere. -/
theorem ensembleArray_no_mixing_witness :
    (∀ t, t < 2 → (fun n : ℕ => (n : ℚ)) (2 * 0 + t) =
      (fun n : ℕ => if n < 2 then (n : ℚ) else 5) (2 * 0 + t)) ∧
    ensembleArrayOutput 2 product (fun n : ℕ => (n : ℚ)) 0 =
      ensembleArrayOutput 2 product (fun n : ℕ => if n < 2 then (n : ℚ) else 5) 0 := by
  have h : ∀ t, t < 2 → (fun n : ℕ => (n : ℚ)) (2 * 0 + t) =
      (fun n : ℕ => if n < 2 then (n : ℚ) else 5) (2 * 0 + t) := by
    intro t ht
    interval_cases t <;> norm_num
  exact ⟨h, ensembleArray_no_mixing 2 product _ _ 0 h⟩

end Nengo
